import Mathlib

/-!
Shallow embedding of `src/etl.py`, a Spark batch ETL job that reads song
metadata and event-log JSON datasets and produces five output tables
(songs, artists, users, time, songplays).

Datasets are embedded as Lean lists of records; the Spark/Spark-SQL
operations the script uses (`select ... dropDuplicates`, `filter`,
`GROUP BY`, `LEFT JOIN`, `from_unixtime`, `year`/`month`/`day`/`hour`/
`weekofyear`/`dayofweek`, `monotonically_increasing_id`) are embedded as
the corresponding list and arithmetic operations.  Timestamps are seconds
since the Unix epoch (`Nat`), with the session time zone taken as UTC;
numeric JSON payloads that the script only carries along and compares for
equality (duration, latitude, longitude) are embedded as `Int`.
-/

namespace SparkEtl

/-! ### Calendar arithmetic (the Spark SQL date functions used by etl.py)

`from_unixtime(ts/1000)` turns a millisecond epoch value into a timestamp;
`year`, `month`, `day`, `hour`, `weekofyear`, `dayofweek` extract calendar
fields from it.  We embed the proleptic-Gregorian civil-from-days
conversion directly. -/

/-- Civil date `(year, month, day)` of a day count since 1970-01-01
(proleptic Gregorian calendar). -/
def civilFromDays (z0 : Nat) : Nat × Nat × Nat :=
  let z := z0 + 719468
  let era := z / 146097
  let doe := z % 146097
  let yoe := (doe - doe / 1460 + doe / 36524 - doe / 146096) / 365
  let y := yoe + era * 400
  let doy := doe - (365 * yoe + yoe / 4 - yoe / 100)
  let mp := (5 * doy + 2) / 153
  let d := doy - (153 * mp + 2) / 5 + 1
  let m := if mp < 10 then mp + 3 else mp - 9
  (if m ≤ 2 then y + 1 else y, m, d)

/-- Day count since 1970-01-01 of a civil date (inverse of `civilFromDays`
on the dates this job can see). -/
def daysFromCivil (y m d : Nat) : Nat :=
  let ya := if m ≤ 2 then y - 1 else y
  let era := ya / 400
  let yoe := ya % 400
  let mp := if 2 < m then m - 3 else m + 9
  let doy := (153 * mp + 2) / 5 + d - 1
  let doe := yoe * 365 + yoe / 4 - yoe / 100 + doy
  era * 146097 + doe - 719468

/-- Spark SQL `year` of an epoch-seconds timestamp. -/
def yearOf (t : Nat) : Nat := (civilFromDays (t / 86400)).1

/-- Spark SQL `month` of an epoch-seconds timestamp. -/
def monthOf (t : Nat) : Nat := (civilFromDays (t / 86400)).2.1

/-- Spark SQL `day` (day of month) of an epoch-seconds timestamp. -/
def dayOf (t : Nat) : Nat := (civilFromDays (t / 86400)).2.2

/-- Spark SQL `hour` of an epoch-seconds timestamp. -/
def hourOf (t : Nat) : Nat := t / 3600 % 24

/-- Spark SQL `dayofweek`: 1 = Sunday, …, 7 = Saturday
(1970-01-01 was a Thursday, so day 0 maps to 5). -/
def weekdayOf (t : Nat) : Nat := (t / 86400 + 4) % 7 + 1

/-- Spark SQL `weekofyear`: the ISO-8601 week number, i.e. the ordinal of
the Monday-based week containing the timestamp, counted in the year of
that week's Thursday. -/
def weekOf (t : Nat) : Nat :=
  let z := t / 86400
  let thursday := z + 3 - (z + 3) % 7
  let y := (civilFromDays thursday).1
  (thursday - daysFromCivil y 1 1) / 7 + 1

/-- `from_unixtime(ts/1000)`: the log's millisecond `ts` field as an
epoch-seconds timestamp (Spark casts the fractional division result back
to an integral number of seconds). -/
def fromUnixtimeMs (ts : Nat) : Nat := ts / 1000

/-! ### Input records (the two JSON dataset schemas) -/

/-- One song-metadata JSON record. -/
structure SongRecord where
  song_id : String
  title : String
  artist_id : String
  year : Int
  duration : Int
  artist_name : String
  artist_location : String
  artist_latitude : Int
  artist_longitude : Int
deriving DecidableEq, Repr

/-- One event-log JSON record. -/
structure LogRecord where
  userId : String
  firstName : String
  lastName : String
  gender : String
  level : String
  page : String
  ts : Nat
  song : String
  sessionId : Nat
  location : String
  userAgent : String
deriving DecidableEq, Repr

/-! ### dropDuplicates

`DataFrame.dropDuplicates()` keeps one representative of every distinct
row; we embed it keeping the first occurrence. -/

/-- Spark `dropDuplicates`: one representative per distinct element,
first occurrence kept. -/
def dropDuplicates {α : Type} [DecidableEq α] : List α → List α
  | [] => []
  | a :: l => a :: (dropDuplicates l).filter (fun b => decide (b ≠ a))

/-! ### process_song_data: songs and artists tables -/

/-- Row of the songs table:
`df.select('song_id','title','artist_id','year','duration')`. -/
structure SongsRow where
  song_id : String
  title : String
  artist_id : String
  year : Int
  duration : Int
deriving DecidableEq, Repr

/-- `songs_table = df.select(...).dropDuplicates()` (etl.py lines 44-45). -/
def songs_table (df : List SongRecord) : List SongsRow :=
  dropDuplicates (df.map fun r =>
    { song_id := r.song_id, title := r.title, artist_id := r.artist_id,
      year := r.year, duration := r.duration })

/-- Row of the artists table: `df.select('artist_id','artist_name',
'artist_location','artist_latitude','artist_longitude')`. -/
structure ArtistsRow where
  artist_id : String
  artist_name : String
  artist_location : String
  artist_latitude : Int
  artist_longitude : Int
deriving DecidableEq, Repr

/-- `artists_table = df.select(...).dropDuplicates()` (etl.py lines 53-55). -/
def artists_table (df : List SongRecord) : List ArtistsRow :=
  dropDuplicates (df.map fun r =>
    { artist_id := r.artist_id, artist_name := r.artist_name,
      artist_location := r.artist_location,
      artist_latitude := r.artist_latitude,
      artist_longitude := r.artist_longitude })

/-! ### process_log_data: users, time and songplays tables -/

/-- `df = df.filter(df['page'] == 'NextSong')` (etl.py line 83): the
retained log events.  Every later table of process_log_data is built from
this filtered frame (the `logs` temp view is created after the filter). -/
def filterNextSong (df : List LogRecord) : List LogRecord :=
  df.filter (fun r => decide (r.page = "NextSong"))

/-- Row of the users table:
`df.select('userId','firstName','lastName','gender','level')`. -/
structure UserRow where
  userId : String
  firstName : String
  lastName : String
  gender : String
  level : String
deriving DecidableEq, Repr

/-- `user_table = df.select(...).dropDuplicates()` (etl.py lines 86-87),
on the NextSong-filtered frame. -/
def user_table (df : List LogRecord) : List UserRow :=
  dropDuplicates ((filterNextSong df).map fun r =>
    { userId := r.userId, firstName := r.firstName, lastName := r.lastName,
      gender := r.gender, level := r.level })

/-- Row of the time table (etl.py lines 94-102). -/
structure TimeRow where
  start_time : Nat
  hour : Nat
  day : Nat
  week : Nat
  month : Nat
  year : Nat
  weekday : Nat
deriving DecidableEq, Repr

/-- One time-table row computed from a start_time, as the outer SELECT of
the time-table query does. -/
def mkTimeRow (t : Nat) : TimeRow :=
  { start_time := t, hour := hourOf t, day := dayOf t, week := weekOf t,
    month := monthOf t, year := yearOf t, weekday := weekdayOf t }

/-- The time-table query (etl.py lines 94-102): the inner subquery
`SELECT from_unixtime(ts/1000) AS start_time FROM logs GROUP BY start_time`
yields one row per distinct start_time of the retained events, and the
outer SELECT derives hour/day/week/month/year/weekday from it. -/
def time_table (df : List LogRecord) : List TimeRow :=
  (dropDuplicates ((filterNextSong df).map fun r => fromUnixtimeMs r.ts)).map
    mkTimeRow

/-- `LEFT JOIN songs s ON l.song = s.title` (etl.py line 126), for one log
row: one joined pair per metadata row whose title matches the event's song
field, or a single null-extended pair when none matches. -/
def joinSong (l : LogRecord) (songs : List SongRecord) :
    List (LogRecord × Option SongRecord) :=
  match songs.filter (fun s => decide (s.title = l.song)) with
  | [] => [(l, none)]
  | ms => ms.map fun s => (l, some s)

/-- All joined pairs of the songplays query: retained log events
left-joined to song metadata on `l.song = s.title`. -/
def songplayPairs (logs : List LogRecord) (songs : List SongRecord) :
    List (LogRecord × Option SongRecord) :=
  (filterNextSong logs).flatMap fun l => joinSong l songs

/-- Row of the songplays SELECT (etl.py lines 114-126), before the
year/month columns are added. -/
structure SongplayBase where
  songplay_id : Nat
  start_time : Nat
  user_id : String
  level : String
  song_id : Option String
  artist_id : Option String
  session_id : Nat
  location : String
  user_agent : String
deriving DecidableEq, Repr

/-- One songplays row from its `monotonically_increasing_id` value and its
joined pair, as the songplays SELECT lists the columns. -/
def mkSongplayBase (i : Nat) (p : LogRecord × Option SongRecord) :
    SongplayBase :=
  { songplay_id := i, start_time := fromUnixtimeMs p.1.ts,
    user_id := p.1.userId, level := p.1.level,
    song_id := p.2.map SongRecord.song_id,
    artist_id := p.2.map SongRecord.artist_id,
    session_id := p.1.sessionId, location := p.1.location,
    user_agent := p.1.userAgent }

/-- The songplays SELECT (etl.py lines 114-126):
`monotonically_increasing_id()` assigns each row a distinct id, embedded
as the row's position. -/
def songplays_base (logs : List LogRecord) (songs : List SongRecord) :
    List SongplayBase :=
  (songplayPairs logs songs).enum.map fun q => mkSongplayBase q.1 q.2

/-- Row of the songplays table after the two `withColumn` calls. -/
structure SongplayRow where
  songplay_id : Nat
  start_time : Nat
  user_id : String
  level : String
  song_id : Option String
  artist_id : Option String
  session_id : Nat
  location : String
  user_agent : String
  year : Nat
  month : Nat
deriving DecidableEq, Repr

/-- The two `withColumn` calls (etl.py lines 127-129): append
`year(start_time)` and `month(start_time)` columns. -/
def withYearMonth (b : SongplayBase) : SongplayRow :=
  { songplay_id := b.songplay_id, start_time := b.start_time,
    user_id := b.user_id, level := b.level, song_id := b.song_id,
    artist_id := b.artist_id, session_id := b.session_id,
    location := b.location, user_agent := b.user_agent,
    year := yearOf b.start_time, month := monthOf b.start_time }

/-- The songplays table as written (etl.py lines 114-134). -/
def songplays_table (logs : List LogRecord) (songs : List SongRecord) :
    List SongplayRow :=
  (songplays_base logs songs).map withYearMonth

/-! ### Basic lemmas about the embedded operations -/

theorem nodup_dropDuplicates {α : Type} [DecidableEq α] (l : List α) :
    (dropDuplicates l).Nodup := by
  induction l with
  | nil => simp [dropDuplicates]
  | cons a l ih =>
    simp only [dropDuplicates, List.nodup_cons]
    refine ⟨fun hmem => ?_, ih.filter _⟩
    have := List.of_mem_filter hmem
    simp at this

theorem length_dropDuplicates_le {α : Type} [DecidableEq α] (l : List α) :
    (dropDuplicates l).length ≤ l.length := by
  induction l with
  | nil => simp [dropDuplicates]
  | cons a l ih =>
    simp only [dropDuplicates, List.length_cons]
    exact Nat.succ_le_succ (le_trans (List.length_filter_le _ _) ih)

theorem mem_dropDuplicates {α : Type} [DecidableEq α] {a : α} {l : List α} :
    a ∈ dropDuplicates l ↔ a ∈ l := by
  induction l with
  | nil => simp [dropDuplicates]
  | cons b l ih =>
    simp only [dropDuplicates, List.mem_cons, List.mem_filter, ih,
      decide_eq_true_eq]
    by_cases hab : a = b
    · simp [hab]
    · simp [hab]

theorem map_fst_enumFrom {α : Type} (l : List α) :
    ∀ n, (l.enumFrom n).map Prod.fst = List.range' n l.length := by
  induction l with
  | nil => intro n; rfl
  | cons a l ih =>
    intro n
    simp [List.enumFrom, List.range'_succ, ih]

theorem mem_enumFrom_of_mem {α : Type} {x : α} :
    ∀ (l : List α), x ∈ l → ∀ n, ∃ i, (i, x) ∈ l.enumFrom n := by
  intro l
  induction l with
  | nil => intro h; cases h
  | cons a l ih =>
    intro hx n
    rcases List.mem_cons.mp hx with h | h
    · exact ⟨n, by simp [List.enumFrom, h]⟩
    · obtain ⟨i, hi⟩ := ih h (n + 1)
      exact ⟨i, by simp [List.enumFrom, Or.inr hi]⟩

theorem snd_mem_of_mem_enumFrom {α : Type} {p : Nat × α} :
    ∀ (l : List α) (n : Nat), p ∈ l.enumFrom n → p.2 ∈ l := by
  intro l
  induction l with
  | nil => intro n h; cases h
  | cons a l ih =>
    intro n h
    rcases List.mem_cons.mp h with h | h
    · subst h; simp
    · exact List.mem_cons.mpr (Or.inr (ih _ h))

theorem map_id_songplays {α β : Type} (f : Nat → α → β) (g : β → Nat)
    (hfg : ∀ i a, g (f i a) = i) :
    ∀ l : List (Nat × α), (l.map fun q => f q.1 q.2).map g = l.map Prod.fst := by
  intro l
  induction l with
  | nil => rfl
  | cons q l ih => simp [ih, hfg]

theorem map_start_time_time_table (df : List LogRecord) :
    (time_table df).map TimeRow.start_time =
      dropDuplicates ((filterNextSong df).map fun r => fromUnixtimeMs r.ts) := by
  unfold time_table
  induction dropDuplicates ((filterNextSong df).map fun r => fromUnixtimeMs r.ts) with
  | nil => rfl
  | cons t l ih => simp [ih, mkTimeRow]

theorem map_songplay_id (logs : List LogRecord) (songs : List SongRecord) :
    (songplays_table logs songs).map SongplayRow.songplay_id =
      (songplayPairs logs songs).enum.map Prod.fst := by
  unfold songplays_table songplays_base
  rw [List.map_map]
  exact map_id_songplays _ _ (fun i a => rfl) _

/-- Where a songplays row comes from: the retained log event it projects,
and either the matching metadata row that filled song_id/artist_id or the
fact that no metadata title matched and both ids are null. -/
theorem songplays_row_source (logs : List LogRecord) (songs : List SongRecord)
    {row : SongplayRow} (h : row ∈ songplays_table logs songs) :
    ∃ l, l ∈ filterNextSong logs ∧
      row.start_time = fromUnixtimeMs l.ts ∧ row.user_id = l.userId ∧
      row.level = l.level ∧ row.session_id = l.sessionId ∧
      row.location = l.location ∧ row.user_agent = l.userAgent ∧
      row.year = yearOf row.start_time ∧ row.month = monthOf row.start_time ∧
      ((∃ s, s ∈ songs ∧ s.title = l.song ∧ row.song_id = some s.song_id ∧
          row.artist_id = some s.artist_id) ∨
       ((∀ s ∈ songs, s.title ≠ l.song) ∧ row.song_id = none ∧
          row.artist_id = none)) := by
  obtain ⟨b, hb, hrow⟩ := List.mem_map.mp h
  obtain ⟨q, hq, hbq⟩ := List.mem_map.mp hb
  have hpair : q.2 ∈ songplayPairs logs songs := by
    rw [List.enum_eq_enumFrom] at hq
    exact snd_mem_of_mem_enumFrom _ _ hq
  obtain ⟨l, hl, hjoin⟩ := List.mem_flatMap.mp hpair
  refine ⟨l, hl, ?_⟩
  unfold joinSong at hjoin
  rcases hfil : songs.filter (fun s => decide (s.title = l.song)) with _ | ⟨s0, ms⟩
  · rw [hfil] at hjoin
    simp only [List.mem_singleton] at hjoin
    subst hrow hbq
    rw [hjoin]
    refine ⟨rfl, rfl, rfl, rfl, rfl, rfl, rfl, rfl, Or.inr ⟨?_, rfl, rfl⟩⟩
    intro s hs
    have := List.filter_eq_nil_iff.mp hfil s hs
    simpa using this
  · rw [hfil] at hjoin
    obtain ⟨s, hs, hqs⟩ := List.mem_map.mp hjoin
    rw [← hfil] at hs
    have hs2 := List.mem_filter.mp hs
    subst hrow hbq
    rw [← hqs]
    exact ⟨rfl, rfl, rfl, rfl, rfl, rfl, rfl, rfl,
      Or.inl ⟨s, hs2.1, by simpa using hs2.2, rfl, rfl⟩⟩

/-- Claim C5: each of the five output tables (songs, artists, users, time,
songplays) is deduplicated: no output table contains two identical rows. -/
theorem C5_no_duplicate_rows (songDf : List SongRecord) (logDf : List LogRecord) :
    (songs_table songDf).Nodup ∧ (artists_table songDf).Nodup ∧
    (user_table logDf).Nodup ∧ (time_table logDf).Nodup ∧
    (songplays_table logDf songDf).Nodup := by
  refine ⟨nodup_dropDuplicates _, nodup_dropDuplicates _, nodup_dropDuplicates _, ?_, ?_⟩
  · apply List.Nodup.of_map TimeRow.start_time
    rw [map_start_time_time_table]
    exact nodup_dropDuplicates _
  · apply List.Nodup.of_map SongplayRow.songplay_id
    rw [map_songplay_id, List.enum_eq_enumFrom, map_fst_enumFrom]
    exact List.nodup_range' _ _

/-- Claim C6: the row count of each deduplicated projection (the songs,
artists, and users tables) is at most the row count of the input dataset
it was projected from. -/
theorem C6_dedup_count_le (songDf : List SongRecord) (logDf : List LogRecord) :
    (songs_table songDf).length ≤ songDf.length ∧
    (artists_table songDf).length ≤ songDf.length ∧
    (user_table logDf).length ≤ logDf.length := by
  refine ⟨?_, ?_, ?_⟩
  · calc (songs_table songDf).length ≤ _ := length_dropDuplicates_le _
      _ = songDf.length := List.length_map _ _
  · calc (artists_table songDf).length ≤ _ := length_dropDuplicates_le _
      _ = songDf.length := List.length_map _ _
  · calc (user_table logDf).length ≤ _ := length_dropDuplicates_le _
      _ = (filterNextSong logDf).length := List.length_map _ _
      _ ≤ logDf.length := List.length_filter_le _ _

/-! ### Concrete sample data used by counterexamples and witnesses -/

/-- A NextSong log event whose song field matches no metadata title. -/
def demoLog : LogRecord :=
  { userId := "u1", firstName := "Ann", lastName := "Lee", gender := "F",
    level := "free", page := "NextSong", ts := 1542241826796,
    song := "Nowhere", sessionId := 7, location := "NYC",
    userAgent := "agent" }

/-- A log event that is not a NextSong action. -/
def demoHomeLog : LogRecord :=
  { userId := "u2", firstName := "Bob", lastName := "Fox", gender := "M",
    level := "paid", page := "Home", ts := 1542241827000,
    song := "", sessionId := 8, location := "SF", userAgent := "agent2" }

/-- A song-metadata record whose title matches `demoLog.song`. -/
def demoMatchingSong : SongRecord :=
  { song_id := "S2", title := "Nowhere", artist_id := "A2", year := 2001,
    duration := 181, artist_name := "Duo", artist_location := "Berlin",
    artist_latitude := 52, artist_longitude := 13 }

/-- A song-metadata record whose title matches no demo log event. -/
def demoSong : SongRecord :=
  { song_id := "S1", title := "Elsewhere", artist_id := "A1", year := 2004,
    duration := 200, artist_name := "Band", artist_location := "LA",
    artist_latitude := 34, artist_longitude := -118 }

/-- Claim C2 as stated is false: with one retained log event whose song
field matches no metadata title, the songplays table still has a row, and
that row pairs with no matching song/artist metadata record. -/
theorem C2_left_join_counterexample :
    ¬ (∀ row ∈ songplays_table [demoLog] [demoSong],
        ∃ l ∈ [demoLog], ∃ s ∈ [demoSong], s.title = l.song ∧
          row.song_id = some s.song_id ∧ row.artist_id = some s.artist_id) := by
  decide

/-- Claim C2 (amended): every songplays row is reconstructed from one
retained log event; when song/artist metadata with title equal to the
event's song field exists, the row pairs the event with one such record,
and otherwise the row carries the event alone with null song_id and
artist_id (the join is a LEFT join, not an inner join). -/
theorem C2_songplays_from_left_join (logs : List LogRecord)
    (songs : List SongRecord) (row : SongplayRow)
    (h : row ∈ songplays_table logs songs) :
    ∃ l, l ∈ logs ∧ l.page = "NextSong" ∧
      row.start_time = fromUnixtimeMs l.ts ∧ row.user_id = l.userId ∧
      row.level = l.level ∧ row.session_id = l.sessionId ∧
      row.location = l.location ∧ row.user_agent = l.userAgent ∧
      ((∃ s, s ∈ songs ∧ s.title = l.song ∧ row.song_id = some s.song_id ∧
          row.artist_id = some s.artist_id) ∨
       ((∀ s ∈ songs, s.title ≠ l.song) ∧ row.song_id = none ∧
          row.artist_id = none)) := by
  obtain ⟨l, hl, h1, h2, h3, h4, h5, h6, _, _, hjoin⟩ :=
    songplays_row_source logs songs h
  have hl2 := List.mem_filter.mp hl
  exact ⟨l, hl2.1, by simpa using hl2.2, h1, h2, h3, h4, h5, h6, hjoin⟩

/-- The unique songplays row of the demo inputs. -/
def demoRow : SongplayRow :=
  withYearMonth (mkSongplayBase 0 (demoLog, none))

theorem C2_songplays_from_left_join_witness :
    ∃ l, l ∈ [demoLog] ∧ l.page = "NextSong" ∧
      demoRow.start_time = fromUnixtimeMs l.ts ∧
      demoRow.user_id = l.userId ∧ demoRow.level = l.level ∧
      demoRow.session_id = l.sessionId ∧ demoRow.location = l.location ∧
      demoRow.user_agent = l.userAgent ∧
      ((∃ s, s ∈ [demoSong] ∧ s.title = l.song ∧
          demoRow.song_id = some s.song_id ∧
          demoRow.artist_id = some s.artist_id) ∨
       ((∀ s ∈ [demoSong], s.title ≠ l.song) ∧ demoRow.song_id = none ∧
          demoRow.artist_id = none)) :=
  C2_songplays_from_left_join [demoLog] [demoSong] demoRow (by decide)

/-- Claim C4: every songplays row's year and month columns are the year
and month derived from its start_time, which is some retained log event's
ts field converted from milliseconds. -/
theorem C4_year_month_from_start_time (logs : List LogRecord)
    (songs : List SongRecord) (row : SongplayRow)
    (h : row ∈ songplays_table logs songs) :
    row.year = yearOf row.start_time ∧ row.month = monthOf row.start_time ∧
      ∃ l, l ∈ logs ∧ row.start_time = fromUnixtimeMs l.ts := by
  obtain ⟨l, hl, h1, _, _, _, _, _, hy, hm, _⟩ :=
    songplays_row_source logs songs h
  exact ⟨hy, hm, l, (List.mem_filter.mp hl).1, h1⟩

theorem C4_year_month_from_start_time_witness :
    demoRow.year = yearOf demoRow.start_time ∧
      demoRow.month = monthOf demoRow.start_time ∧
      ∃ l, l ∈ [demoLog] ∧ demoRow.start_time = fromUnixtimeMs l.ts :=
  C4_year_month_from_start_time [demoLog] [demoSong] demoRow (by decide)

/-- Claim C9: a retained (NextSong) log event whose song field matches no
metadata title still yields a songplays row, with null song_id and
artist_id. -/
theorem C9_unmatched_event_kept (logs : List LogRecord)
    (songs : List SongRecord) (l : LogRecord) (hl : l ∈ logs)
    (hp : l.page = "NextSong") (hno : ∀ s ∈ songs, s.title ≠ l.song) :
    ∃ row, row ∈ songplays_table logs songs ∧
      row.start_time = fromUnixtimeMs l.ts ∧ row.user_id = l.userId ∧
      row.song_id = none ∧ row.artist_id = none := by
  have hlf : l ∈ filterNextSong logs :=
    List.mem_filter.mpr ⟨hl, by simpa using hp⟩
  have hfil : songs.filter (fun s => decide (s.title = l.song)) = [] :=
    List.filter_eq_nil_iff.mpr (fun s hs => by simpa using hno s hs)
  have hjoin : (l, (none : Option SongRecord)) ∈ joinSong l songs := by
    unfold joinSong
    rw [hfil]
    simp
  have hpair : (l, (none : Option SongRecord)) ∈ songplayPairs logs songs :=
    List.mem_flatMap.mpr ⟨l, hlf, hjoin⟩
  obtain ⟨i, hi⟩ := mem_enumFrom_of_mem _ hpair 0
  refine ⟨withYearMonth (mkSongplayBase i (l, none)), ?_, rfl, rfl, rfl, rfl⟩
  apply List.mem_map_of_mem withYearMonth
  unfold songplays_base
  rw [List.enum_eq_enumFrom]
  exact List.mem_map.mpr ⟨(i, (l, none)), hi, rfl⟩

theorem C9_unmatched_event_kept_witness :
    ∃ row, row ∈ songplays_table [demoLog] [demoSong] ∧
      row.start_time = fromUnixtimeMs demoLog.ts ∧
      row.user_id = demoLog.userId ∧
      row.song_id = none ∧ row.artist_id = none :=
  C9_unmatched_event_kept [demoLog] [demoSong] demoLog (by decide) (by decide)
    (by decide)

/-- Removing a non-NextSong event from the log dataset leaves the
retained frame unchanged. -/
theorem filterNextSong_erase_mid (pre post : List LogRecord) (e : LogRecord)
    (he : e.page ≠ "NextSong") :
    filterNextSong (pre ++ e :: post) = filterNextSong (pre ++ post) := by
  unfold filterNextSong
  simp [List.filter_append, List.filter_cons, he]

/-- Claim C8: the users, time and songplays tables are derived only from
log events whose page is NextSong: an event with any other page value
contributes to none of them. -/
theorem C8_non_nextsong_contributes_nothing (pre post : List LogRecord)
    (e : LogRecord) (songs : List SongRecord) (he : e.page ≠ "NextSong") :
    user_table (pre ++ e :: post) = user_table (pre ++ post) ∧
    time_table (pre ++ e :: post) = time_table (pre ++ post) ∧
    songplays_table (pre ++ e :: post) songs =
      songplays_table (pre ++ post) songs := by
  have hf := filterNextSong_erase_mid pre post e he
  refine ⟨?_, ?_, ?_⟩
  · unfold user_table; rw [hf]
  · unfold time_table; rw [hf]
  · unfold songplays_table songplays_base songplayPairs; rw [hf]

theorem C8_non_nextsong_contributes_nothing_witness :
    user_table ([] ++ demoHomeLog :: [demoLog]) = user_table ([] ++ [demoLog]) ∧
    time_table ([] ++ demoHomeLog :: [demoLog]) = time_table ([] ++ [demoLog]) ∧
    songplays_table ([] ++ demoHomeLog :: [demoLog]) [demoSong] =
      songplays_table ([] ++ [demoLog]) [demoSong] :=
  C8_non_nextsong_contributes_nothing [] [demoLog] demoHomeLog [demoSong]
    (by decide)

/-- Claim C10: in the time table, start_time is a key: there is one row
per distinct start_time of the retained events (no two rows share a
start_time, and every retained event's converted ts has a row), and every
row's hour, day, week, month, year and weekday are derived from its
start_time. -/
theorem C10_time_table_start_time_key (logs : List LogRecord) :
    ((time_table logs).map TimeRow.start_time).Nodup ∧
    (∀ l ∈ filterNextSong logs, ∃ row ∈ time_table logs,
        row.start_time = fromUnixtimeMs l.ts) ∧
    (∀ row ∈ time_table logs,
        row.hour = hourOf row.start_time ∧ row.day = dayOf row.start_time ∧
        row.week = weekOf row.start_time ∧
        row.month = monthOf row.start_time ∧
        row.year = yearOf row.start_time ∧
        row.weekday = weekdayOf row.start_time ∧
        ∃ l ∈ filterNextSong logs, row.start_time = fromUnixtimeMs l.ts) := by
  refine ⟨?_, ?_, ?_⟩
  · rw [map_start_time_time_table]
    exact nodup_dropDuplicates _
  · intro l hl
    refine ⟨mkTimeRow (fromUnixtimeMs l.ts), ?_, rfl⟩
    apply List.mem_map_of_mem mkTimeRow
    exact mem_dropDuplicates.mpr (List.mem_map_of_mem _ hl)
  · intro row hrow
    obtain ⟨t, ht, hrt⟩ := List.mem_map.mp hrow
    obtain ⟨l, hl, hlt⟩ :=
      List.mem_map.mp (mem_dropDuplicates.mp ht)
    subst hrt
    exact ⟨rfl, rfl, rfl, rfl, rfl, rfl, l, hl, hlt.symm⟩

theorem C10_time_table_start_time_key_witness :
    ((time_table [demoLog]).map TimeRow.start_time).Nodup ∧
    (∀ l ∈ filterNextSong [demoLog], ∃ row ∈ time_table [demoLog],
        row.start_time = fromUnixtimeMs l.ts) ∧
    (∀ row ∈ time_table [demoLog],
        row.hour = hourOf row.start_time ∧ row.day = dayOf row.start_time ∧
        row.week = weekOf row.start_time ∧
        row.month = monthOf row.start_time ∧
        row.year = yearOf row.start_time ∧
        row.weekday = weekdayOf row.start_time ∧
        ∃ l ∈ filterNextSong [demoLog],
          row.start_time = fromUnixtimeMs l.ts) :=
  C10_time_table_start_time_key [demoLog]

/-! ### Effect model: reads, writes and failure

etl.py contains no try/except: every read, transform or write either
succeeds or raises, and a raised error aborts the remaining statements of
`process_song_data` / `process_log_data` / `main` while the parquet
datasets already written stay on storage.  We embed the engine as an
environment that yields each read's result and each write's outcome, and
the object store as a path-keyed list of written tables. -/

/-- One written output dataset. -/
inductive TableData where
  | songs : List SongsRow → TableData
  | artists : List ArtistsRow → TableData
  | users : List UserRow → TableData
  | time : List TimeRow → TableData
  | songplays : List SongplayRow → TableData
deriving DecidableEq, Repr

/-- The object store: written datasets keyed by path. -/
abbrev Store := List (String × TableData)

/-- mode='overwrite': replace whatever was at the path. -/
def storeWrite (st : Store) (path : String) (t : TableData) : Store :=
  (path, t) :: st.filter fun p => decide (p.1 ≠ path)

/-- Contents of the store at a path. -/
def storeGet (st : Store) (path : String) : Option TableData :=
  (st.find? fun p => p.1 == path).map fun p => p.2

/-- The external engine as seen by one run: what each JSON read returns
(or the error it raises), and which writes fail (with what error). -/
structure SparkEnv where
  songData : Except String (List SongRecord)
  logData : Except String (List LogRecord)
  writeFail : String → Option String

/-- `write.parquet(path, mode='overwrite', ...)`: fails with the engine's
error, or overwrites the dataset at the path. -/
def writeParquet (env : SparkEnv) (st : Store) (path : String)
    (t : TableData) : Except String Unit × Store :=
  match env.writeFail path with
  | some e => (Except.error e, st)
  | none => (Except.ok (), storeWrite st path t)

/-- `process_song_data` (etl.py lines 24-59): read song data, write the
songs table, write the artists table; any failure aborts the rest and is
re-raised, with prior writes kept. -/
def processSongData (env : SparkEnv) (output_data : String) (st : Store) :
    Except String Unit × Store :=
  match env.songData with
  | Except.error e => (Except.error e, st)
  | Except.ok df =>
    match writeParquet env st (output_data ++ "/songs_table")
        (TableData.songs (songs_table df)) with
    | (Except.error e, st1) => (Except.error e, st1)
    | (Except.ok _, st1) =>
        writeParquet env st1 (output_data ++ "/artists_table")
          (TableData.artists (artists_table df))

/-- `process_log_data` (etl.py lines 62-134): read log data, write users,
write time, re-read song data, write songplays; any failure aborts the
rest and is re-raised, with prior writes kept. -/
def processLogData (env : SparkEnv) (output_data : String) (st : Store) :
    Except String Unit × Store :=
  match env.logData with
  | Except.error e => (Except.error e, st)
  | Except.ok logDf =>
    match writeParquet env st (output_data ++ "/user_table")
        (TableData.users (user_table logDf)) with
    | (Except.error e, st1) => (Except.error e, st1)
    | (Except.ok _, st1) =>
      match writeParquet env st1 (output_data ++ "/time_table")
          (TableData.time (time_table logDf)) with
      | (Except.error e, st2) => (Except.error e, st2)
      | (Except.ok _, st2) =>
        match env.songData with
        | Except.error e => (Except.error e, st2)
        | Except.ok songDf =>
            writeParquet env st2 (output_data ++ "/songplays_table")
              (TableData.songplays (songplays_table logDf songDf))

/-- `main` (etl.py lines 137-143): the two routines in sequence; a failure
in the first aborts the run before the second. -/
def mainEtl (env : SparkEnv) (output_data : String) (st : Store) :
    Except String Unit × Store :=
  match processSongData env output_data st with
  | (Except.error e, st1) => (Except.error e, st1)
  | (Except.ok _, st1) => processLogData env output_data st1

theorem storeGet_storeWrite (st : Store) (path : String) (t : TableData) :
    storeGet (storeWrite st path t) path = some t := by
  simp [storeGet, storeWrite, List.find?]

/-- Claim C7: neither transformation routine nor the driver catches any
exception.  The conjuncts enumerate every operation of the two routines
that can fail — the song-data read, the songs and artists writes, the
log-data read, the user, time and songplays writes, and the song-data
re-read inside process_log_data — and state that each failure's error is
returned unchanged (uncaught) out of process_song_data, process_log_data
and main, with the store at the failure holding exactly the writes that
preceded it (no rollback).  Together with the all-success path these
cases cover every environment. -/
theorem C7_errors_propagate_uncaught (env : SparkEnv) (out : String)
    (st : Store) :
    (∀ e, env.songData = Except.error e →
        processSongData env out st = (Except.error e, st)) ∧
    (∀ df e, env.songData = Except.ok df →
        env.writeFail (out ++ "/songs_table") = some e →
        processSongData env out st = (Except.error e, st)) ∧
    (∀ df e, env.songData = Except.ok df →
        env.writeFail (out ++ "/songs_table") = none →
        env.writeFail (out ++ "/artists_table") = some e →
        processSongData env out st =
          (Except.error e,
            storeWrite st (out ++ "/songs_table")
              (TableData.songs (songs_table df)))) ∧
    (∀ e, env.logData = Except.error e →
        processLogData env out st = (Except.error e, st)) ∧
    (∀ logDf e, env.logData = Except.ok logDf →
        env.writeFail (out ++ "/user_table") = some e →
        processLogData env out st = (Except.error e, st)) ∧
    (∀ logDf e, env.logData = Except.ok logDf →
        env.writeFail (out ++ "/user_table") = none →
        env.writeFail (out ++ "/time_table") = some e →
        processLogData env out st =
          (Except.error e,
            storeWrite st (out ++ "/user_table")
              (TableData.users (user_table logDf)))) ∧
    (∀ logDf e, env.logData = Except.ok logDf →
        env.writeFail (out ++ "/user_table") = none →
        env.writeFail (out ++ "/time_table") = none →
        env.songData = Except.error e →
        processLogData env out st =
          (Except.error e,
            storeWrite
              (storeWrite st (out ++ "/user_table")
                (TableData.users (user_table logDf)))
              (out ++ "/time_table")
              (TableData.time (time_table logDf)))) ∧
    (∀ logDf songDf e, env.logData = Except.ok logDf →
        env.writeFail (out ++ "/user_table") = none →
        env.writeFail (out ++ "/time_table") = none →
        env.songData = Except.ok songDf →
        env.writeFail (out ++ "/songplays_table") = some e →
        processLogData env out st =
          (Except.error e,
            storeWrite
              (storeWrite st (out ++ "/user_table")
                (TableData.users (user_table logDf)))
              (out ++ "/time_table")
              (TableData.time (time_table logDf)))) ∧
    (∀ e st1, processSongData env out st = (Except.error e, st1) →
        mainEtl env out st = (Except.error e, st1)) ∧
    (∀ st1 e st2, processSongData env out st = (Except.ok (), st1) →
        processLogData env out st1 = (Except.error e, st2) →
        mainEtl env out st = (Except.error e, st2)) := by
  refine ⟨?_, ?_, ?_, ?_, ?_, ?_, ?_, ?_, ?_, ?_⟩
  · intro e h
    unfold processSongData
    rw [h]
  · intro df e h hw
    unfold processSongData writeParquet
    rw [h, hw]
  · intro df e h hw1 hw2
    unfold processSongData writeParquet
    rw [h, hw1, hw2]
  · intro e h
    unfold processLogData
    rw [h]
  · intro logDf e h hw
    unfold processLogData writeParquet
    rw [h, hw]
  · intro logDf e h hw1 hw2
    unfold processLogData writeParquet
    rw [h, hw1, hw2]
  · intro logDf e h hw1 hw2 hs
    unfold processLogData writeParquet
    rw [h, hw1, hw2, hs]
  · intro logDf songDf e h hw1 hw2 hs hw3
    unfold processLogData writeParquet
    rw [h, hw1, hw2, hs, hw3]
  · intro e st1 h
    unfold mainEtl
    rw [h]
  · intro st1 e st2 h1 h2
    unfold mainEtl
    rw [h1]
    exact h2

/-- Environment whose song-data read raises. -/
def envReadFail : SparkEnv :=
  { songData := Except.error "read failed", logData := Except.ok [demoLog],
    writeFail := fun _ => none }

/-- Environment whose songs-table write raises. -/
def envSongsWriteFail : SparkEnv :=
  { songData := Except.ok [demoSong], logData := Except.ok [demoLog],
    writeFail := fun p =>
      if p = "out/songs_table" then some "songs write failed" else none }

/-- Environment whose artists-table write raises after the songs-table
write succeeded. -/
def envArtistsWriteFail : SparkEnv :=
  { songData := Except.ok [demoSong], logData := Except.ok [demoLog],
    writeFail := fun p =>
      if p = "out/artists_table" then some "artists write failed"
      else none }

/-- Environment whose log-data read raises. -/
def envLogFail : SparkEnv :=
  { songData := Except.ok [demoSong],
    logData := Except.error "log read failed",
    writeFail := fun _ => none }

/-- Environment whose user-table write raises. -/
def envUserWriteFail : SparkEnv :=
  { songData := Except.ok [demoSong], logData := Except.ok [demoLog],
    writeFail := fun p =>
      if p = "out/user_table" then some "user write failed" else none }

/-- Environment whose time-table write raises after the user-table write
succeeded. -/
def envTimeWriteFail : SparkEnv :=
  { songData := Except.ok [demoSong], logData := Except.ok [demoLog],
    writeFail := fun p =>
      if p = "out/time_table" then some "write failed" else none }

/-- Environment whose song-data re-read inside process_log_data raises
after the user and time writes succeeded. -/
def envRereadFail : SparkEnv :=
  { songData := Except.error "song read failed",
    logData := Except.ok [demoLog], writeFail := fun _ => none }

/-- Environment whose songplays-table write raises, every earlier
operation succeeding. -/
def envSongplaysWriteFail : SparkEnv :=
  { songData := Except.ok [demoSong], logData := Except.ok [demoLog],
    writeFail := fun p =>
      if p = "out/songplays_table" then some "songplays write failed"
      else none }

/-- The store after the successful song phase of `envSongplaysWriteFail`. -/
def storeAfterSongPhase : Store :=
  storeWrite
    (storeWrite [] "out/songs_table" (TableData.songs (songs_table [demoSong])))
    "out/artists_table" (TableData.artists (artists_table [demoSong]))

/-- The store after the user and time writes on top of
`storeAfterSongPhase`. -/
def storeAfterTimeWrite : Store :=
  storeWrite
    (storeWrite storeAfterSongPhase "out/user_table"
      (TableData.users (user_table [demoLog])))
    "out/time_table" (TableData.time (time_table [demoLog]))

theorem C7_errors_propagate_uncaught_witness :
    processSongData envReadFail "out" [] = (Except.error "read failed", []) ∧
    processSongData envSongsWriteFail "out" [] =
      (Except.error "songs write failed", []) ∧
    processSongData envArtistsWriteFail "out" [] =
      (Except.error "artists write failed",
        storeWrite [] "out/songs_table"
          (TableData.songs (songs_table [demoSong]))) ∧
    processLogData envLogFail "out" [] =
      (Except.error "log read failed", []) ∧
    processLogData envUserWriteFail "out" [] =
      (Except.error "user write failed", []) ∧
    processLogData envTimeWriteFail "out" [] =
      (Except.error "write failed",
        storeWrite [] "out/user_table"
          (TableData.users (user_table [demoLog]))) ∧
    processLogData envRereadFail "out" [] =
      (Except.error "song read failed",
        storeWrite
          (storeWrite [] "out/user_table"
            (TableData.users (user_table [demoLog])))
          "out/time_table" (TableData.time (time_table [demoLog]))) ∧
    processLogData envSongplaysWriteFail "out" storeAfterSongPhase =
      (Except.error "songplays write failed", storeAfterTimeWrite) ∧
    mainEtl envReadFail "out" [] = (Except.error "read failed", []) ∧
    mainEtl envSongplaysWriteFail "out" [] =
      (Except.error "songplays write failed", storeAfterTimeWrite) := by
  refine ⟨(C7_errors_propagate_uncaught envReadFail "out" []).1
      "read failed" rfl,
    (C7_errors_propagate_uncaught envSongsWriteFail "out" []).2.1
      [demoSong] "songs write failed" rfl rfl,
    (C7_errors_propagate_uncaught envArtistsWriteFail "out" []).2.2.1
      [demoSong] "artists write failed" rfl rfl rfl,
    (C7_errors_propagate_uncaught envLogFail "out" []).2.2.2.1
      "log read failed" rfl,
    (C7_errors_propagate_uncaught envUserWriteFail "out" []).2.2.2.2.1
      [demoLog] "user write failed" rfl rfl,
    (C7_errors_propagate_uncaught envTimeWriteFail "out" []).2.2.2.2.2.1
      [demoLog] "write failed" rfl rfl rfl,
    (C7_errors_propagate_uncaught envRereadFail "out" []).2.2.2.2.2.2.1
      [demoLog] "song read failed" rfl rfl rfl rfl,
    (C7_errors_propagate_uncaught envSongplaysWriteFail "out"
        storeAfterSongPhase).2.2.2.2.2.2.2.1
      [demoLog] [demoSong] "songplays write failed" rfl rfl rfl rfl rfl,
    (C7_errors_propagate_uncaught envReadFail "out" []).2.2.2.2.2.2.2.2.1
      "read failed" [] ?_,
    (C7_errors_propagate_uncaught envSongplaysWriteFail "out"
        []).2.2.2.2.2.2.2.2.2 storeAfterSongPhase "songplays write failed"
      storeAfterTimeWrite ?_ ?_⟩
  · exact (C7_errors_propagate_uncaught envReadFail "out" []).1
      "read failed" rfl
  · rfl
  · exact (C7_errors_propagate_uncaught envSongplaysWriteFail "out"
        storeAfterSongPhase).2.2.2.2.2.2.2.1
      [demoLog] [demoSong] "songplays write failed" rfl rfl rfl rfl rfl

/-! ### Configuration (etl.py lines 9-13)

`configparser.ConfigParser` parses an INI file into named sections, each
holding key/value options; indexing the parser (`config[name]`) looks up
a SECTION by name and yields that section's option mapping, never a
single option value.  etl.py writes
`os.environ['AWS_ACCESS_KEY_ID'] = config['AWS_ACCESS_KEY_ID']` (and the
same for the secret key), i.e. it indexes the parser with the option
names themselves. -/

/-- A parsed INI config: ordered sections, each a list of key/value
options. -/
abbrev IniConfig := List (String × List (String × String))

/-- `config[name]` on a ConfigParser: section lookup.  `none` embeds the
KeyError the parser raises when no section has that name; a `some`
result is a section's option mapping (a SectionProxy), not a string. -/
def configGetSection (c : IniConfig) (name : String) :
    Option (List (String × String)) :=
  (c.find? fun p => p.1 == name).map fun p => p.2

/-- A dl.cfg holding the credential pair the way configparser expects
options: inside a section, here named AWS. -/
def dlCfg : IniConfig :=
  [("AWS",
    [("AWS_ACCESS_KEY_ID", "AKIAEXAMPLEKEYID"),
     ("AWS_SECRET_ACCESS_KEY", "examplesecret")])]

/-- Claim C3 fails on the code: lines 12-13 index the parser with the
option names, which is a section lookup; for a dl.cfg that stores the
credential pair as options of a section, both lookups raise KeyError
(embedded as `none`), so neither credential string is ever read, and the
environment export on line 12 raises before anything is exported.  (Even
a dl.cfg with sections literally named AWS_ACCESS_KEY_ID would make
`config[...]` a SectionProxy, which `os.environ[...] = ...` rejects with
TypeError, never the credential string.) -/
theorem C3_section_lookup_fails :
    configGetSection dlCfg "AWS_ACCESS_KEY_ID" = none ∧
    configGetSection dlCfg "AWS_SECRET_ACCESS_KEY" = none ∧
    configGetSection dlCfg "AWS" =
      some [("AWS_ACCESS_KEY_ID", "AKIAEXAMPLEKEYID"),
            ("AWS_SECRET_ACCESS_KEY", "examplesecret")] := by
  refine ⟨?_, ?_, ?_⟩ <;> rfl

end SparkEtl
